import Mathlib

/-!
Verification development for the BriefCuesFacilitateDetection robot-experiment
repository (directory `Robot_Control`).

The repository has four Python modules:
* `thymio_controller_JLU_study.py`            — per-robot reactive controller;
* `thymio_controller_JLU_study_timing.py`     — per-robot controller, timing variant;
* `experiment_controller_JLU_study.py`        — central orchestrator (non-timing);
* `experiment_controller_JLU_study_timing.py` — central orchestrator, timing variant.

The modules are shallowly embedded here:
* pure helper functions become Lean functions;
* each polling-loop body becomes an explicit step function on a state record,
  with the per-iteration environment (received bus message, sensor readings,
  wall-clock reading `time.time()`, GPIO button levels, and the values produced
  by the `random` module) passed in as an input record;
* observable side effects (ZMQ `send_string`, sound playback, haptic pulses,
  LSL pushes performed inside the transition functions, `time.sleep`, LED
  writes) are collected as an ordered list of `Event`s;
* Python floats are modelled as `ℚ`, Python ints as `Int`, Python strings as
  `String`;
* a Python exception that escapes to an outer handler is modelled as the
  `Except.error` case of the function's result.

Within one loop iteration every call to `time.time()` is modelled by the single
per-iteration input `now`; the sub-second drift between consecutive calls inside
one iteration is not observable by any property stated here.  Periodic telemetry
pushes (`push_lsl_streams`, the 10 ms LSL cadence) and console printing are
I/O-only and are not modelled; the explicit `push_sample` performed inside
`start_pause` / `handle_trial` is kept because it is part of those functions.
-/

/-- Observable side effects of the controllers and orchestrators, in program
order.  `send topic cmd` is `socket.send_string(f"{topic} {cmd}")`; `play f` is
`mixer.Channel(_).play(mixer.Sound(f))`; `haptic dot dur intensity` is
`haptic_vest.submit_dot(dot, dur, intensity)`; `push stream v` is an explicit
LSL `push_sample`; `sleepFor q` is `time.sleep(q)`; `led name values` is a
write `robot['leds.<name>'] = values` on the robot. -/
inductive Event where
  | send : String → String → Event
  | play : String → Event
  | haptic : Int → Int → Int → Event
  | push : String → Int → Event
  | sleepFor : ℚ → Event
  | led : String → List Int → Event
deriving DecidableEq, Repr

/-- `vibration_intensity = 40` in both experiment controllers. -/
def vibration_intensity : Int := 40

/-- The fixed list of haptic-vest dots pulsed for a tactile cue in both
experiment controllers: `for dot in [1, 4, 13, 16, 17, 20, 29, 32]:
haptic_vest.submit_dot(dot, 10, vibration_intensity)`. -/
def hapticEvents : List Event :=
  [1, 4, 13, 16, 17, 20, 29, 32].map (fun dot => Event.haptic dot 10 vibration_intensity)

namespace Thymio

/-! Embedding of `thymio_controller_JLU_study.py` (the non-timing robot
controller). -/

/-- `robot_speed = 250` in `main`. -/
def robot_speed : Int := 250

/-- `back_duration = 1` in `main`. -/
def back_duration : ℚ := 1

/-- `detect_obstacle(prox_values, threshold=1000)`: true iff any proximity
value exceeds the threshold. -/
def detect_obstacle (prox_values : List Int) (threshold : Int := 1000) : Bool :=
  prox_values.any (fun value => value > threshold)

/-- `detect_line(prox_values, threshold=300)` reads the two entries of the
Thymio ground-reflected array (`prox_values[0]`, `prox_values[1]`): 1 if a line
is detected on the left, 2 on the right, 0 otherwise.  The two entries are
passed separately because the source always receives the fixed two-element
ground array. -/
def detect_line (g0 g1 : Int) (threshold : Int := 300) : Int :=
  if g0 < threshold then 1
  else if g1 < threshold then 2
  else 0

/-- The controller's loop-local state: external directive `robot_state`,
internal action `robot_action`, the action timer, and the rotation sign. -/
structure State where
  robot_state : String
  robot_action : String
  action_start_time : ℚ
  action_duration : ℚ
  rotation_direction : Int
deriving DecidableEq, Repr

/-- Per-iteration environment of the control loop.  `msg` is the token list of
the received bus message after `.decode('utf-8').split()` (`none` when
`zmq.recv` raised `zmq.Again`); `prox_horizontal` is `robot['prox.horizontal']`;
`ground0`/`ground1` are the two entries of `robot['prox.ground.reflected']`;
`now` is `time.time()`; `rand_duration` and `rand_rotation` are the values that
`random.uniform(0.5, 1.5)` and `random.choice([-1, 1])` return if called this
iteration (at most one avoid-maneuver randomization happens per iteration). -/
structure Input where
  msg : Option (List String)
  prox_horizontal : List Int
  ground0 : Int
  ground1 : Int
  now : ℚ
  rand_duration : ℚ
  rand_rotation : Int

/-- Message-processing phase of one loop iteration (source lines 81–94).
`topic, data = ....split()` raises `ValueError` unless the message has exactly
two tokens; that exception is not caught by the inner `except zmq.Again`
handler, so it escapes to the outer handler — modelled as `.error ()`.
A two-token message assigns `robot_state := data` when `topic == 'all'`,
`robot_action := data` when `topic == robot_id`, and is otherwise ignored. -/
def receiveStep (robotId : String) (msg : Option (List String)) (s : State) :
    Except Unit State :=
  match msg with
  | none => .ok s
  | some [topic, data] =>
      if topic = "all" then .ok { s with robot_state := data }
      else if topic = robotId then .ok { s with robot_action := data }
      else .ok s
  | some _ => .error ()

/-- State-handling phase of one loop iteration (source lines 96–141): the
directive/action transition policy followed by the action-timer check. -/
def controlStep (inp : Input) (s : State) : State :=
  if s.robot_state = "off" then { s with robot_action := "stop" }
  else if s.robot_state = "on" then
    let s1 :=
      if s.robot_action = "stop" then { s with robot_action := "go" }
      else if s.robot_action = "pause" then { s with action_duration := 0 }
      else if s.robot_action = "go" then
        let s2 :=
          if detect_obstacle (inp.prox_horizontal.take 5) then
            { s with robot_action := "avoid", action_duration := inp.rand_duration,
                     rotation_direction := inp.rand_rotation,
                     action_start_time := inp.now }
          else s
        let line_detection := detect_line inp.ground0 inp.ground1
        if line_detection = 1 then
          { s2 with robot_action := "back", action_duration := back_duration,
                    rotation_direction := 1, action_start_time := inp.now }
        else if line_detection = 2 then
          { s2 with robot_action := "back", action_duration := back_duration,
                    rotation_direction := -1, action_start_time := inp.now }
        else s2
      else if s.robot_action = "back" then
        if detect_obstacle
            (inp.prox_horizontal.drop (inp.prox_horizontal.length - 2)) then
          { s with robot_action := "avoid", action_duration := inp.rand_duration,
                   rotation_direction := inp.rand_rotation,
                   action_start_time := inp.now }
        else s
      else s
    if 0 < s1.action_duration ∧ s1.action_duration < inp.now - s1.action_start_time then
      if s1.robot_action = "back" then
        { s1 with robot_action := "avoid", action_duration := inp.rand_duration,
                  action_start_time := inp.now }
      else { s1 with robot_action := "go", action_duration := 0 }
    else s1
  else s

/-- Actuation phase (source lines 143–159).  The motor targets are device
state: when the action matches no branch they keep their previous values,
hence the extra `motors` argument. -/
def actuate (s : State) (motors : Int × Int) : Int × Int :=
  if s.robot_action = "go" then (robot_speed, robot_speed)
  else if s.robot_action = "avoid" then
    (s.rotation_direction * robot_speed, -s.rotation_direction * robot_speed)
  else if s.robot_action = "back" then (-robot_speed, -robot_speed)
  else if s.robot_action = "stop" ∨ s.robot_action = "pause" then (0, 0)
  else motors

/-- One full iteration of the `while True` control loop: receive, state
handling, actuation.  `.error (0, 0)` models the unhandled exception reaching
the outer `except Exception` handler, which zeroes both motor targets and
leaves the loop (fail-stop). -/
def tick (robotId : String) (inp : Input) (s : State) (motors : Int × Int) :
    Except (Int × Int) (State × (Int × Int)) :=
  match receiveStep robotId inp.msg s with
  | .error _ => .error (0, 0)
  | .ok s1 =>
      let s2 := controlStep inp s1
      .ok (s2, actuate s2 motors)

end Thymio

namespace ThymioTiming

/-! Embedding of the message-processing phase of
`thymio_controller_JLU_study_timing.py` (source lines 80–122).  The loop-local
state variables are identical to the non-timing controller, so `Thymio.State`
is reused.  The timing controller compares the topic against `str(robot.id)`
(the Thymio node id), handles `'on'` on the robot topic specially, and
consumes `led` directives by writing the robot's LED actuators (collected as
`Event.led` writes). -/

/-- LED writes performed for `led <data>` (source lines 93–119). -/
def ledEvents (data : String) : List Event :=
  if data = "1" then
    [Event.led "top" [32, 32, 32], Event.led "bottom.left" [32, 32, 32],
     Event.led "bottom.right" [32, 32, 32],
     Event.led "circle" [32, 32, 32, 32, 32, 32, 32, 32]]
  else if data = "2" then
    [Event.led "top" [0, 32, 0], Event.led "bottom.left" [0, 32, 0],
     Event.led "bottom.right" [0, 32, 0]]
  else if data = "3" then
    [Event.led "top" [32, 0, 0], Event.led "bottom.left" [32, 0, 0],
     Event.led "bottom.right" [32, 0, 0]]
  else if data = "4" then
    [Event.led "top" [0, 0, 32], Event.led "bottom.left" [0, 0, 32],
     Event.led "bottom.right" [0, 0, 32]]
  else
    [Event.led "top" [0, 0, 0], Event.led "bottom.left" [0, 0, 0],
     Event.led "bottom.right" [0, 0, 0],
     Event.led "circle" [0, 0, 0, 0, 0, 0, 0, 0]]

/-- Message-processing phase of the timing controller's loop.  As in the
non-timing controller, a message that does not split into exactly two tokens
raises `ValueError` past the inner handler: `.error ()`. -/
def receiveStep (nodeId : String) (msg : Option (List String)) (s : Thymio.State) :
    Except Unit (Thymio.State × List Event) :=
  match msg with
  | none => .ok (s, [])
  | some [topic, data] =>
      if topic = "all" then .ok ({ s with robot_state := data }, [])
      else if topic = nodeId then
        if data = "on" then .ok ({ s with robot_state := "on" }, [])
        else .ok ({ s with robot_action := data }, [])
      else if topic = "led" then .ok (s, ledEvents data)
      else .ok (s, [])
  | some _ => .error ()

end ThymioTiming

/-- `int(x)` in Python: truncation toward zero. -/
def pyInt (q : ℚ) : Int := if 0 ≤ q then ⌊q⌋ else ⌈q⌉

namespace StudyTiming

/-! Embedding of `experiment_controller_JLU_study_timing.py`. -/

/-- A trial tuple `(timestamp, cue, effect)`. -/
abbrev Trial := ℚ × Int × Int

/-- `generate_trials(num_repeats=0, duration=0, start_offset=30, end_offset=10,
cue_types=[0,1,2,3], effect_types=[0,1,2,3,4,5,6], min_interval=8,
max_interval=12)` (source lines 68–107).

The two random sources are passed in: `shuffle` is the permutation
`random.shuffle` applies to `repeated_combinations`, and `draws i` is the value
the `i`-th call to `random.randint(min_interval, max_interval)` returns.

`none` models a Python exception: float division by zero in the
duration-driven branch when `max_interval + min_interval == 0`, and the
`IndexError` from `cue_types[0]` when the duration-driven loop runs at least
once with empty `cue_types`. -/
def assign_offsets (draws : ℕ → Int) (timestamp : ℚ) :
    List (Int × Int) → List Trial
  | [] => []
  | (cue, effect) :: rest =>
      (timestamp, cue, effect) ::
        assign_offsets (fun i => draws (i + 1)) (timestamp + draws 0) rest

def generate_trials (shuffle : List (Int × Int) → List (Int × Int))
    (draws : ℕ → Int) (num_repeats : ℕ) (duration start_offset end_offset : ℚ)
    (cue_types effect_types : List Int) (min_interval max_interval : Int) :
    Option (List Trial) :=
  if num_repeats ≠ 0 then
    let combinations :=
      cue_types.flatMap (fun cue => effect_types.map (fun effect => (cue, effect)))
    let repeated_combinations := (List.replicate num_repeats combinations).flatten
    some (assign_offsets draws start_offset (shuffle repeated_combinations))
  else
    if max_interval + min_interval = 0 then none
    else
      let n := pyInt ((duration - start_offset - end_offset) /
        (((max_interval : ℚ) + (min_interval : ℚ)) / 2))
      if n ≤ 0 then some []
      else
        match cue_types with
        | [] => none
        | cue :: _ =>
            some (assign_offsets draws start_offset
              (List.replicate n.toNat (cue, 1)))

end StudyTiming

namespace Study

/-! Embedding of `experiment_controller_JLU_study.py` (non-timing
orchestrator). -/

/-- `generate_trials(num_rep=0, duration=0, start_offset=30, min_end_offset=10,
cue_types=[0,1,2,3], effect_types=[0,1])` (source lines 61–99).  Its body is
token-for-token the trial-generation logic of the timing variant except that
the interval bounds are read from the module globals `min_interval = 8` and
`max_interval = 12` instead of parameters. -/
def generate_trials (shuffle : List (Int × Int) → List (Int × Int))
    (draws : ℕ → Int) (num_rep : ℕ) (duration start_offset min_end_offset : ℚ)
    (cue_types effect_types : List Int) : Option (List StudyTiming.Trial) :=
  StudyTiming.generate_trials shuffle draws num_rep duration start_offset
    min_end_offset cue_types effect_types 8 12

/-- Module globals of the non-timing orchestrator. -/
def num_robots : Int := 10

/-- `robot_stop_duration = 5`. -/
def robot_stop_duration : ℚ := 5

/-- `stop_offset = 0.02`. -/
def stop_offset : ℚ := 0.02

/-- The orchestrator session state mutated by the `run_experiment` loop body:
`trial_index`, the `cue_emitted` flag, and the globals `robot_state`,
`cue_state`, `robot_stop_id`. -/
structure ExpState where
  trial_index : ℕ
  cue_emitted : Bool
  robot_state : Int
  cue_state : Int
  robot_stop_id : Int
deriving DecidableEq, Repr

/-- `emit_cue(trial)` (source lines 101–129): plays/pulses the stimulus for the
trial's cue type and records the cue state. -/
def emit_cue (trial : StudyTiming.Trial) (s : ExpState) : ExpState × List Event :=
  if trial.2.1 = 0 then ({ s with cue_state := 1 }, [])
  else if trial.2.1 = 1 then ({ s with cue_state := 2 }, [Event.play "sine.wav"])
  else if trial.2.1 = 2 then ({ s with cue_state := 3 }, hapticEvents)
  else if trial.2.1 = 3 then
    ({ s with cue_state := 4 }, Event.play "sine.wav" :: hapticEvents)
  else (s, [])

/-- `start_pause(trial)` (source lines 131–148): only when the trial's effect
type is 1 does it draw a random robot (`rand` is the `random.randint(0,
num_robots - 1)` result), publish `(robot_id, pause)`, push the robot id, and
set `robot_state = 1`; otherwise it records `robot_stop_id = -1` and
`robot_state = 2` without publishing anything. -/
def start_pause (rand : Int) (trial : StudyTiming.Trial) (s : ExpState) :
    ExpState × List Event :=
  if trial.2.2 = 1 then
    ({ s with robot_stop_id := rand, robot_state := 1 },
     [Event.send (toString rand) "pause", Event.push "robot_id" (rand + 1)])
  else
    ({ s with robot_stop_id := -1, robot_state := 2 }, [])

/-- `end_pause()` (source lines 150–161): publishes `(robot_stop_id, go)` when
a robot is recorded as stopped, and resets `robot_state` and `cue_state`.
Note that `robot_stop_id` itself is left unchanged. -/
def end_pause (s : ExpState) : ExpState × List Event :=
  ({ s with robot_state := 0, cue_state := 0 },
   if s.robot_stop_id ≠ -1 then [Event.send (toString s.robot_stop_id) "go"]
   else [])

/-- The trial-handling `if/elif` chain of one `run_experiment` loop iteration
(source lines 230–242).  `elapsed` is the `elapsed_time` computed at the top of
the iteration; `rand` is the robot draw `start_pause` would use. -/
def experimentStep (trials : List StudyTiming.Trial) (rand : Int)
    (elapsed : ℚ) (s : ExpState) : ExpState × List Event :=
  match trials.get? s.trial_index with
  | none => (s, [])
  | some t =>
      if ¬ s.cue_emitted = true ∧ t.1 ≤ elapsed then
        let r := emit_cue t s
        ({ r.1 with cue_emitted := true }, r.2)
      else if t.1 + stop_offset ≤ elapsed ∧ s.robot_state = 0 then
        start_pause rand t s
      else if t.1 + stop_offset + robot_stop_duration ≤ elapsed then
        let r := end_pause s
        ({ r.1 with trial_index := s.trial_index + 1, cue_emitted := false }, r.2)
      else (s, [])

end Study

namespace StudyTiming

/-- Mode flags of `run_training` plus the `num_robots` global (10). -/
structure TConfig where
  is_training : Bool
  is_test : Bool
  num_robots : Int
deriving DecidableEq, Repr

/-- Session state of `run_training`: the loop-local variables plus the
`experiment_params` entries the loop mutates. -/
structure TState where
  trial_index : ℕ
  robot_stopped : Bool
  robot_detected : Bool
  trial_finished : Bool
  in_trial : Bool
  start_time : ℚ
  elapsed_time : ℚ
  robot_stop_time : ℚ
  robot_stop_id : Int
  robot_state : Int
  cue_state : Int
  stop_state : Int
deriving DecidableEq, Repr

/-- Per-iteration environment of the `run_training` loop: `now` is
`time.time()`, the four booleans are the GPIO levels of the user-main,
user-short, user-long and stop buttons (`stop_high = true` means
`GPIO.input(buttons['stop']) == 1`, i.e. do not break), and `rand_robot` is the
value `random.randint(0, num_robots - 1)` returns if called. -/
structure TInput where
  now : ℚ
  user_main : Bool
  user_short : Bool
  user_long : Bool
  stop_high : Bool
  rand_robot : Int
deriving DecidableEq, Repr

/-- `handle_trial(trial, stop_robot)` (source lines 109–151): records
`stop_state`, emits the trial's cue, and — when `stop_robot` — draws a fresh
robot only if `robot_stop_id == -1`, publishes `(robot_stop_id, pause)`,
pushes the robot id sample, and sets `robot_state = 1`. -/
def handle_trial (rand_robot : Int) (trial : Trial) (stop_robot : Bool)
    (s : TState) : TState × List Event :=
  let s0 := { s with stop_state := trial.2.2 + 1 }
  let cue := trial.2.1
  let r1 : TState × List Event :=
    if cue = 0 then ({ s0 with cue_state := 1 }, [])
    else if cue = 1 then ({ s0 with cue_state := 2 }, [Event.play "sine.wav"])
    else if cue = 2 then ({ s0 with cue_state := 3 }, hapticEvents)
    else if cue = 3 then
      ({ s0 with cue_state := 4 }, Event.play "sine.wav" :: hapticEvents)
    else (s0, [])
  if stop_robot then
    let s1 :=
      if r1.1.robot_stop_id = -1 then { r1.1 with robot_stop_id := rand_robot }
      else r1.1
    ({ s1 with robot_state := 1 },
     r1.2 ++ [Event.send (toString s1.robot_stop_id) "pause",
              Event.push "robot_id" (s1.robot_stop_id + 1)])
  else r1

/-- `end_pause()` of the timing orchestrator (source lines 153–170): publishes
`(robot_stop_id, go)` when a robot is recorded, and resets `robot_state`,
`cue_state` and `stop_state`.  `robot_stop_id` is not touched here. -/
def end_pause (s : TState) : TState × List Event :=
  ({ s with robot_state := 0, cue_state := 0, stop_state := 0 },
   if s.robot_stop_id ≠ -1 then [Event.send (toString s.robot_stop_id) "go"]
   else [])

/-- Trial-start branch of the `run_training` loop (source lines 296–300): when
the current trial is due, the robot is not stopped and no trial is in
progress, handle the trial with `stop_robot=True`, record the stop time, and
enter the trial window. -/
def trialStartBranch (trials : List Trial) (inp : TInput) (s : TState) :
    TState × List Event :=
  match trials.get? s.trial_index with
  | none => (s, [])
  | some t =>
      if ¬ s.robot_stopped = true ∧ t.1 ≤ s.elapsed_time ∧ ¬ s.in_trial = true then
        let r := handle_trial inp.rand_robot t true s
        ({ r.1 with robot_stopped := true, robot_stop_time := inp.now,
                    in_trial := true }, r.2)
      else (s, [])

/-- Detection branch of the `run_training` loop (source lines 303–332): when
the stopped robot has been detected (user-main button), give training feedback
or open the response window, `time.sleep(0.2 + 0.1 * effect)` — the sleep
happens BEFORE `end_pause()` in the source — then resume the robot, reset the
robot selection in plain-experiment mode, switch the LED on outside training,
and leave the stopped state. -/
def detectionBranch (cfg : TConfig) (trials : List Trial) (inp : TInput)
    (s : TState) : TState × List Event :=
  match trials.get? s.trial_index with
  | none => (s, [])
  | some t =>
      if s.robot_stopped = true ∧ inp.user_main = true then
        let rA : TState × List Event :=
          if cfg.is_training then
            ({ s with trial_finished := true },
             if t.2.2 = 0 then [Event.play "Short.wav"]
             else if t.2.2 = 6 then [Event.play "Long.wav"]
             else [])
          else ({ s with robot_detected := true }, [])
        let evSleep := [Event.sleepFor (0.2 + 0.1 * (t.2.2 : ℚ))]
        let rB := end_pause rA.1
        let s1 :=
          if ¬ cfg.is_test = true ∧ ¬ cfg.is_training = true then
            { rB.1 with robot_stop_id := -1 }
          else rB.1
        let evLed := if ¬ cfg.is_training = true then [Event.send "led" "1"] else []
        ({ s1 with robot_stopped := false },
         rA.2 ++ evSleep ++ rB.2 ++ evLed)
      else (s, [])

/-- Response branch of the `run_training` loop (source lines 335–362): when a
response window is open and a response button is pressed, give symmetric
correct/wrong feedback at the two effect-level extremes (0 and 6), close the
window and mark the trial finished. -/
def responseBranch (trials : List Trial) (inp : TInput) (s : TState) :
    TState × List Event :=
  match trials.get? s.trial_index with
  | none => (s, [])
  | some t =>
      if s.robot_detected = true ∧ (inp.user_long = true ∨ inp.user_short = true) then
        let ev1 :=
          if inp.user_long then
            if t.2.2 = 0 then [Event.play "Wrong.wav", Event.send "led" "3"]
            else if t.2.2 = 6 then [Event.play "Correct.wav", Event.send "led" "2"]
            else []
          else []
        let ev2 :=
          if inp.user_short then
            if t.2.2 = 0 then [Event.play "Correct.wav", Event.send "led" "2"]
            else if t.2.2 = 6 then [Event.play "Wrong.wav", Event.send "led" "3"]
            else []
          else []
        ({ s with robot_detected := false, trial_finished := true }, ev1 ++ ev2)
      else (s, [])

/-- Trial-resolution block of the `run_training` loop (source lines 365–380):
clear the flags, switch the LED off, advance to the next trial, and compensate
the clock baseline by the wall-clock time spent since the robot was stopped. -/
def finishBranch (now : ℚ) (s : TState) : TState × List Event :=
  if s.trial_finished then
    ({ s with trial_finished := false, in_trial := false,
              trial_index := s.trial_index + 1,
              start_time := s.start_time + (now - s.robot_stop_time) },
     [Event.send "led" "0"])
  else (s, [])

/-- One full iteration of the `run_training` main loop (source lines 276–389):
re-measure elapsed time unless inside a trial window, then run the four
sequential `if` blocks. -/
def timingStep (cfg : TConfig) (trials : List Trial) (inp : TInput)
    (s : TState) : TState × List Event :=
  let sE := if ¬ s.in_trial = true then { s with elapsed_time := inp.now - s.start_time }
            else s
  let r1 := trialStartBranch trials inp sE
  let r2 := detectionBranch cfg trials inp r1.1
  let r3 := responseBranch trials inp r2.1
  let r4 := finishBranch inp.now r3.1
  (r4.1, r1.2 ++ r2.2 ++ r3.2 ++ r4.2)

/-- The `run_training` main loop (source lines 276–389) over a finite trace of
per-iteration environments: the loop runs while `elapsed_time <= total_duration`
and stops after an iteration whose stop-button read is low (`break`). -/
def runLoop (cfg : TConfig) (trials : List Trial) (total_duration : ℚ) :
    List TInput → TState → TState × List Event
  | [], s => (s, [])
  | inp :: rest, s =>
      if s.elapsed_time ≤ total_duration then
        let r := timingStep cfg trials inp s
        if inp.stop_high then
          let r2 := runLoop cfg trials total_duration rest r.1
          (r2.1, r.2 ++ r2.2)
        else (r.1, r.2)
      else (s, [])

/-- Session initialisation of `run_training` before the main loop (source
lines 233–273): reset the robots, start the white noise, reset the state
variables and the clock (`t0` is the `time.time()` baseline), and — in
training or test mode — pre-select one random robot (`rand` is the
`random.randint(0, num_robots - 1)` draw) and activate only it; otherwise set
`robot_stop_id = -1` and activate all robots. -/
def initSession (cfg : TConfig) (rand : Int) (t0 : ℚ) : TState × List Event :=
  let sel : Bool := cfg.is_training || cfg.is_test
  ({ trial_index := 0, robot_stopped := false, robot_detected := false,
     trial_finished := false, in_trial := false, start_time := t0,
     elapsed_time := 0, robot_stop_time := 0,
     robot_stop_id := if sel then rand else -1,
     robot_state := 0, cue_state := 0, stop_state := 0 },
   [Event.send "all" "off", Event.sleepFor 0.5, Event.send "led" "0",
    Event.play "whitenoise.wav"] ++
   (if sel then [Event.send (toString rand) "on"] else [Event.send "all" "on"]))

end StudyTiming

/-- The structural hypotheses under which the timing orchestrator is inside
the response window of trial `i`'s record `t`: the current trial is `t`, a
trial window is open, the robot has been resumed, and the detection has been
confirmed. -/
def StudyTiming.responseReady (trials : List StudyTiming.Trial) (i : ℕ)
    (t : StudyTiming.Trial) (s : StudyTiming.TState) : Prop :=
  trials.get? i = some t ∧ s.trial_index = i ∧ s.in_trial = true ∧
    s.robot_stopped = false ∧ s.robot_detected = true

/-!  ## Claims -/

/-- Claim C1: Robot Controller safety invariant.  If the external directive
`robot_state` is `off` when the control tick's transition policy runs (i.e.
after the iteration's message-processing phase produced `s1`), then that same
tick forces the internal action to `stop` and sets both motor targets to `0`,
regardless of the prior internal action, the action timer, the sensor
readings, and the previous motor targets. -/
theorem robot_off_forces_stop (robotId : String) (inp : Thymio.Input)
    (s s1 : Thymio.State) (motors : Int × Int)
    (hrecv : Thymio.receiveStep robotId inp.msg s = .ok s1)
    (hoff : s1.robot_state = "off") :
    (Thymio.controlStep inp s1).robot_action = "stop" ∧
    Thymio.tick robotId inp s motors =
      .ok ({ s1 with robot_action := "stop" }, (0, 0)) := by
  have hctl : Thymio.controlStep inp s1 = { s1 with robot_action := "stop" } := by
    unfold Thymio.controlStep
    rw [hoff]
    simp
  refine ⟨by rw [hctl], ?_⟩
  unfold Thymio.tick
  rw [hrecv]
  simp only [hctl]
  unfold Thymio.actuate
  simp

/-- Witness for C1: a concrete off-directive state with a running `avoid`
maneuver and spinning motors is forced to `stop` with motors `(0, 0)`. -/
theorem robot_off_forces_stop_witness :
    (Thymio.controlStep ⟨none, [500, 2000], 400, 400, 9, 1, -1⟩
        ⟨"off", "avoid", 3, 1, 1⟩).robot_action = "stop" ∧
    Thymio.tick "0" ⟨none, [500, 2000], 400, 400, 9, 1, -1⟩
        ⟨"off", "avoid", 3, 1, 1⟩ (250, -250) =
      .ok (⟨"off", "stop", 3, 1, 1⟩, (0, 0)) :=
  robot_off_forces_stop "0" ⟨none, [500, 2000], 400, 400, 9, 1, -1⟩
    ⟨"off", "avoid", 3, 1, 1⟩ ⟨"off", "avoid", 3, 1, 1⟩ (250, -250) rfl rfl

/-- Counterexample to claim C4.  The claim says that any received message that
does not parse into the closed two-token command vocabulary is ignored without
altering directive state, action state, or motor outputs, and that the control
loop continues.  Both parts fail on the code: (1) the two-token message
`all banana` is outside the command vocabulary, yet the non-timing controller
assigns `robot_state = 'banana'`, altering the directive state; (2) the
one-token message `all` makes the tuple unpacking raise `ValueError`, which is
not caught by the inner `except zmq.Again` handler, so the outer handler
zeroes the motors and exits the loop (fail-stop, not fail-open). -/
theorem malformed_directive_counterexample :
    Thymio.receiveStep "0" (some ["all", "banana"]) ⟨"on", "go", 0, 0, 1⟩ =
      .ok ⟨"banana", "go", 0, 0, 1⟩ ∧
    ("banana" : String) ≠ "on" ∧
    Thymio.receiveStep "0" (some ["all"]) ⟨"on", "go", 0, 0, 1⟩ = .error () ∧
    Thymio.tick "0" ⟨some ["all"], [], 400, 400, 0, 1, 1⟩ ⟨"on", "go", 0, 0, 1⟩
        (250, 250) = .error (0, 0) :=
  ⟨rfl, by decide, rfl, rfl⟩

/-- Claim C4, amended: only a two-token message whose topic matches none of
the controller's recognized topics is ignored without altering any state (for
the non-timing controller the topics are `all` and the robot id; for the
timing controller `all`, the node id, and `led`).  A two-token message on a
recognized robot/`all` topic always overwrites the corresponding state
variable with its data token even when the command is outside the closed
vocabulary, and a message that does not split into exactly two tokens raises
an uncaught `ValueError`, so the fail-safe handler zeroes the motors and the
loop terminates (fail-stop). -/
theorem malformed_directive_handling (robotId nodeId topic data : String)
    (tokens : List String) (s : Thymio.State) :
    (topic ≠ "all" → topic ≠ robotId →
      Thymio.receiveStep robotId (some [topic, data]) s = .ok s) ∧
    (topic ≠ "all" → topic ≠ nodeId → topic ≠ "led" →
      ThymioTiming.receiveStep nodeId (some [topic, data]) s = .ok (s, [])) ∧
    (tokens.length ≠ 2 →
      Thymio.receiveStep robotId (some tokens) s = .error ()) ∧
    (tokens.length ≠ 2 →
      ThymioTiming.receiveStep nodeId (some tokens) s = .error ()) := by
  refine ⟨?_, ?_, ?_, ?_⟩
  · intro h1 h2
    simp [Thymio.receiveStep, h1, h2]
  · intro h1 h2 h3
    simp [ThymioTiming.receiveStep, h1, h2, h3]
  · intro hlen
    match tokens, hlen with
    | [], _ => rfl
    | [_], _ => rfl
    | _ :: _ :: _ :: _, _ => rfl
    | [a, b], h => exact absurd rfl h
  · intro hlen
    match tokens, hlen with
    | [], _ => rfl
    | [_], _ => rfl
    | _ :: _ :: _ :: _, _ => rfl
    | [a, b], h => exact absurd rfl h

/-- Witness for the amended C4: a concrete unrecognized-topic message is
ignored by both controllers, and a concrete three-token message raises in
both. -/
theorem malformed_directive_handling_witness :
    Thymio.receiveStep "0" (some ["7", "pause"]) ⟨"on", "go", 0, 0, 1⟩ =
      .ok ⟨"on", "go", 0, 0, 1⟩ ∧
    ThymioTiming.receiveStep "3" (some ["7", "pause"]) ⟨"on", "go", 0, 0, 1⟩ =
      .ok (⟨"on", "go", 0, 0, 1⟩, []) ∧
    Thymio.receiveStep "0" (some ["a", "b", "c"]) ⟨"on", "go", 0, 0, 1⟩ =
      .error () ∧
    ThymioTiming.receiveStep "3" (some ["a", "b", "c"]) ⟨"on", "go", 0, 0, 1⟩ =
      .error () := by
  have h := malformed_directive_handling "0" "3" "7" "pause" ["a", "b", "c"]
    ⟨"on", "go", 0, 0, 1⟩
  exact ⟨h.1 (by decide) (by decide), h.2.1 (by decide) (by decide) (by decide),
         h.2.2.1 (by decide), h.2.2.2 (by decide)⟩

/-- The offsets assigned by the running cursor start at the cursor value. -/
lemma assign_offsets_head (draws : ℕ → Int) (t : ℚ) (l : List (Int × Int)) :
    ∀ x ∈ (StudyTiming.assign_offsets draws t l).head?, x.1 = t := by
  cases l with
  | nil => simp [StudyTiming.assign_offsets]
  | cons p rest =>
      cases p
      simp [StudyTiming.assign_offsets]

/-- Consecutive offsets assigned by the running cursor differ by the
corresponding interval draw; with draws in `[min, max]` and `1 ≤ min` the
offsets are strictly increasing with gaps in range. -/
lemma assign_offsets_chain (min max : Int) (hmin : 1 ≤ min) (draws : ℕ → Int)
    (hd : ∀ i, min ≤ draws i ∧ draws i ≤ max) (t : ℚ) (l : List (Int × Int)) :
    ((StudyTiming.assign_offsets draws t l).map Prod.fst).Chain'
      (fun a b => a < b ∧ (min : ℚ) ≤ b - a ∧ b - a ≤ (max : ℚ)) := by
  induction l generalizing draws t with
  | nil => simp [StudyTiming.assign_offsets]
  | cons p rest ih =>
      cases p with
      | mk c e =>
          simp only [StudyTiming.assign_offsets, List.map_cons]
          rw [List.chain'_cons']
          refine ⟨?_, ih (fun i => draws (i + 1)) (fun i => hd (i + 1)) _⟩
          intro y hy
          cases rest with
          | nil => simp [StudyTiming.assign_offsets] at hy
          | cons q rest' =>
              cases q with
              | mk c' e' =>
                  simp only [StudyTiming.assign_offsets, List.map_cons,
                    List.head?_cons, Option.mem_def, Option.some.injEq] at hy
                  subst hy
                  have h0 := hd 0
                  have hminq : (min : ℚ) ≤ (draws 0 : ℚ) := by exact_mod_cast h0.1
                  have hmaxq : (draws 0 : ℚ) ≤ (max : ℚ) := by exact_mod_cast h0.2
                  have h1q : (1 : ℚ) ≤ (min : ℚ) := by exact_mod_cast hmin
                  refine ⟨by linarith, by linarith, by linarith⟩

/-- The cue/effect pairs of the assigned trials are exactly the input list. -/
lemma assign_offsets_map_snd (draws : ℕ → Int) (t : ℚ) (l : List (Int × Int)) :
    (StudyTiming.assign_offsets draws t l).map (fun x => x.2) = l := by
  induction l generalizing draws t with
  | nil => rfl
  | cons p rest ih =>
      cases p
      simp [StudyTiming.assign_offsets, ih]

/-- Every timeline `generate_trials` returns is built by the offset cursor
starting at `start_offset`. -/
lemma generate_trials_shape (shuffle : List (Int × Int) → List (Int × Int))
    (draws : ℕ → Int) (num_repeats : ℕ) (duration start_offset end_offset : ℚ)
    (cue_types effect_types : List Int) (min_interval max_interval : Int)
    (ts : List StudyTiming.Trial)
    (hts : StudyTiming.generate_trials shuffle draws num_repeats duration
      start_offset end_offset cue_types effect_types min_interval max_interval
      = some ts) :
    ∃ l, ts = StudyTiming.assign_offsets draws start_offset l := by
  unfold StudyTiming.generate_trials at hts
  by_cases h1 : num_repeats ≠ 0
  · rw [if_pos h1] at hts
    exact ⟨_, (Option.some.inj hts).symm⟩
  · rw [if_neg h1] at hts
    by_cases h2 : max_interval + min_interval = 0
    · rw [if_pos h2] at hts
      exact absurd hts (by simp)
    · rw [if_neg h2] at hts
      simp only [] at hts
      by_cases h3 : pyInt ((duration - start_offset - end_offset) /
          (((max_interval : ℚ) + (min_interval : ℚ)) / 2)) ≤ 0
      · rw [if_pos h3] at hts
        refine ⟨[], ?_⟩
        rw [← Option.some.inj hts]
        rfl
      · rw [if_neg h3] at hts
        cases cue_types with
        | nil => exact absurd hts (by simp)
        | cons c rest => exact ⟨_, (Option.some.inj hts).symm⟩

/-- Claim C2: for every timeline `generate_trials` returns (repetition-driven
or duration-driven), with `min_interval ≥ 1` and every interval draw in
`[min_interval, max_interval]` (the contract of
`random.randint(min_interval, max_interval)`), consecutive offsets are
strictly increasing with every gap in `[min_interval, max_interval]`, the
offsets are pairwise strictly increasing, and the first offset equals
`start_offset`.  The non-timing `generate_trials` is the instance
`min_interval = 8`, `max_interval = 12` of the same function. -/
theorem generate_trials_offsets (shuffle : List (Int × Int) → List (Int × Int))
    (draws : ℕ → Int) (num_repeats : ℕ) (duration start_offset end_offset : ℚ)
    (cue_types effect_types : List Int) (min_interval max_interval : Int)
    (ts : List StudyTiming.Trial)
    (hmin : 1 ≤ min_interval)
    (hdraws : ∀ i, min_interval ≤ draws i ∧ draws i ≤ max_interval)
    (hts : StudyTiming.generate_trials shuffle draws num_repeats duration
      start_offset end_offset cue_types effect_types min_interval max_interval
      = some ts) :
    (ts.map Prod.fst).Chain' (fun a b =>
      a < b ∧ (min_interval : ℚ) ≤ b - a ∧ b - a ≤ (max_interval : ℚ)) ∧
    (ts.map Prod.fst).Pairwise (· < ·) ∧
    ∀ x ∈ ts.head?, x.1 = start_offset := by
  obtain ⟨l, rfl⟩ := generate_trials_shape shuffle draws num_repeats duration
    start_offset end_offset cue_types effect_types min_interval max_interval ts hts
  have hchain := assign_offsets_chain min_interval max_interval hmin draws hdraws
    start_offset l
  refine ⟨hchain, ?_, assign_offsets_head draws start_offset l⟩
  exact List.chain'_iff_pairwise.mp (hchain.imp (fun a b h => h.1))

/-- Witness for C2: the concrete call `generate_trials` with two cue types,
two effect levels, one repetition, identity shuffle and constant draw 8
produces the timeline `[(30,0,0), (38,0,1), (46,1,0), (54,1,1)]`, whose
offsets satisfy the gap and monotonicity properties. -/
theorem generate_trials_offsets_witness :
    (([((30 : ℚ), (0 : Int), (0 : Int)), (38, 0, 1), (46, 1, 0),
       (54, 1, 1)].map Prod.fst).Chain' (fun a b =>
      a < b ∧ ((8 : Int) : ℚ) ≤ b - a ∧ b - a ≤ ((12 : Int) : ℚ)) ∧
    ([((30 : ℚ), (0 : Int), (0 : Int)), (38, 0, 1), (46, 1, 0),
       (54, 1, 1)].map Prod.fst).Pairwise (· < ·) ∧
    (((30 : ℚ), (0 : Int), (0 : Int)) : StudyTiming.Trial).1 = (30 : ℚ)) := by
  have h := generate_trials_offsets id (fun _ => 8) 1 0 30 10 [0, 1] [0, 1] 8 12
    [(30, 0, 0), (38, 0, 1), (46, 1, 0), (54, 1, 1)]
    (by decide) (fun i => ⟨by simp, by simp⟩)
    (by norm_num [StudyTiming.generate_trials, StudyTiming.assign_offsets])
  exact ⟨h.1, h.2.1, h.2.2 (30, 0, 0) rfl⟩

/-- The Cartesian product built by the list comprehension has
`|cue_types| * |effect_types|` elements. -/
lemma length_cue_effect_product (cue_types effect_types : List Int) :
    (cue_types.flatMap (fun cue => effect_types.map (fun effect =>
      (cue, effect)))).length = cue_types.length * effect_types.length := by
  induction cue_types with
  | nil => simp
  | cons c rest ih => simp [ih, Nat.succ_mul, Nat.add_comm]

/-- `combinations * num_rep` in Python has `num_rep * |combinations|`
elements. -/
lemma length_flatten_replicate {α : Type} (n : ℕ) (l : List α) :
    ((List.replicate n l).flatten).length = n * l.length := by
  induction n with
  | zero => simp
  | succ k ih => simp [List.replicate_succ, ih, Nat.succ_mul, Nat.add_comm]

/-- Claim C3: for every `generate_trials` call with `repetitions > 0` and
non-empty cue and effect lists, the multiset of `(cue_type, effect_level)`
pairs of the returned timeline is exactly `repetitions` copies of the
Cartesian product `cue_types × effect_types`, for every shuffle that is a
permutation (the contract of `random.shuffle`); in particular the timeline has
`repetitions * |cue_types| * |effect_types|` trials. -/
theorem generate_trials_content (shuffle : List (Int × Int) → List (Int × Int))
    (draws : ℕ → Int) (num_repeats : ℕ) (duration start_offset end_offset : ℚ)
    (cue_types effect_types : List Int) (min_interval max_interval : Int)
    (ts : List StudyTiming.Trial)
    (hrep : num_repeats ≠ 0) (_hcue : cue_types ≠ []) (_heff : effect_types ≠ [])
    (hshuffle : ∀ l, (shuffle l).Perm l)
    (hts : StudyTiming.generate_trials shuffle draws num_repeats duration
      start_offset end_offset cue_types effect_types min_interval max_interval
      = some ts) :
    (ts.map (fun x => x.2)).Perm
      ((List.replicate num_repeats (cue_types.flatMap (fun cue =>
        effect_types.map (fun effect => (cue, effect))))).flatten) ∧
    ts.length = num_repeats * (cue_types.length * effect_types.length) := by
  unfold StudyTiming.generate_trials at hts
  rw [if_pos hrep] at hts
  have hts' := (Option.some.inj hts).symm
  subst hts'
  rw [assign_offsets_map_snd]
  refine ⟨hshuffle _, ?_⟩
  have hlen : (StudyTiming.assign_offsets draws start_offset
      (shuffle ((List.replicate num_repeats (cue_types.flatMap (fun cue =>
        effect_types.map (fun effect => (cue, effect))))).flatten))).length =
      (shuffle ((List.replicate num_repeats (cue_types.flatMap (fun cue =>
        effect_types.map (fun effect => (cue, effect))))).flatten)).length := by
    conv_lhs => rw [← List.length_map _ (fun x => x.2), assign_offsets_map_snd]
  rw [hlen, (hshuffle _).length_eq, length_flatten_replicate,
    length_cue_effect_product]

/-- Witness for C3: with `cue_types = [0,1]`, `effect_types = [0,1]`,
`repetitions = 2`, identity shuffle and constant draw 8, the timeline's pairs
are a permutation of two copies of the Cartesian product and the timeline has
exactly 8 trials. -/
theorem generate_trials_content_witness :
    (([((30 : ℚ), (0 : Int), (0 : Int)), (38, 0, 1), (46, 1, 0), (54, 1, 1),
       (62, 0, 0), (70, 0, 1), (78, 1, 0), (86, 1, 1)].map
        (fun x => x.2)).Perm
      ((List.replicate 2 (([0, 1] : List Int).flatMap (fun cue =>
        ([0, 1] : List Int).map (fun effect => (cue, effect))))).flatten) ∧
    ([((30 : ℚ), (0 : Int), (0 : Int)), (38, 0, 1), (46, 1, 0), (54, 1, 1),
       (62, 0, 0), (70, 0, 1), (78, 1, 0), (86, 1, 1)] :
        List StudyTiming.Trial).length = 2 * (2 * 2)) :=
  generate_trials_content id (fun _ => 8) 2 0 30 10 [0, 1] [0, 1] 8 12
    [(30, 0, 0), (38, 0, 1), (46, 1, 0), (54, 1, 1),
     (62, 0, 0), (70, 0, 1), (78, 1, 0), (86, 1, 1)]
    (by decide) (by decide) (by decide) (fun l => List.Perm.refl l)
    (by norm_num [StudyTiming.generate_trials, StudyTiming.assign_offsets])

/-- Counterexample to claim C5.  The claim says the non-timing orchestrator,
on every trial, pauses a randomly selected robot once
`elapsed ≥ trial.offset + stop_offset` holds with no robot currently paused.
On the code this only happens for trials whose effect type is 1:
`start_pause` with `trial[2] != 1` publishes nothing, selects no robot, and
sets `robot_state = 2` and `robot_stop_id = -1`.  Concretely, for the trial
`(30, 0, 0)` (effect 0) with the cue already emitted, `robot_state = 0`
(nothing paused) and `elapsed = 31 ≥ 30 + 0.02`, the loop body publishes no
directive at all. -/
theorem pause_semantics_counterexample :
    Study.experimentStep [(30, 0, 0)] 4 31 ⟨0, true, 0, 1, -1⟩ =
      (⟨0, true, 2, 1, -1⟩, []) ∧
    (Study.experimentStep [(30, 0, 0)] 4 31 ⟨0, true, 0, 1, -1⟩).2 ≠
      [Event.send "4" "pause", Event.push "robot_id" 5] := by
  have h : Study.experimentStep [(30, 0, 0)] 4 31 ⟨0, true, 0, 1, -1⟩ =
      (⟨0, true, 2, 1, -1⟩, []) := by
    norm_num [Study.experimentStep, Study.start_pause, Study.stop_offset]
  exact ⟨h, by rw [h]; simp⟩

/-- Claim C5, amended: in the elif chain of the non-timing orchestrator's loop
body, once `elapsed ≥ trial.offset + stop_offset` with the cue already emitted
and `robot_state = 0`, a pause is started only when the trial's effect type is
1: then the orchestrator records the random draw as the paused robot,
publishes `(robot_id, pause)`, pushes the robot id, and sets
`robot_state = 1`; for any other effect type it publishes nothing and sets
`robot_state = 2` with `robot_stop_id = -1`.  Once
`elapsed ≥ trial.offset + stop_offset + stop_duration` with `robot_state ≠ 0`,
the orchestrator publishes `(robot_stop_id, go)` (when a robot is recorded),
resets `robot_state` and `cue_state` to 0, advances to the next trial and
resets the cue-emitted flag — but `robot_stop_id` itself is not cleared. -/
theorem pause_semantics (trials : List StudyTiming.Trial) (i : ℕ)
    (t : StudyTiming.Trial) (rand : Int) (elapsed : ℚ) (s : Study.ExpState)
    (hidx : s.trial_index = i) (ht : trials.get? i = some t)
    (hcue : s.cue_emitted = true) :
    (t.2.2 = 1 → s.robot_state = 0 → t.1 + Study.stop_offset ≤ elapsed →
      Study.experimentStep trials rand elapsed s =
        ({ s with robot_stop_id := rand, robot_state := 1 },
         [Event.send (toString rand) "pause", Event.push "robot_id" (rand + 1)])) ∧
    (t.2.2 ≠ 1 → s.robot_state = 0 → t.1 + Study.stop_offset ≤ elapsed →
      Study.experimentStep trials rand elapsed s =
        ({ s with robot_stop_id := -1, robot_state := 2 }, [])) ∧
    (s.robot_state ≠ 0 →
      t.1 + Study.stop_offset + Study.robot_stop_duration ≤ elapsed →
      s.robot_stop_id ≠ -1 →
      Study.experimentStep trials rand elapsed s =
        ({ s with robot_state := 0, cue_state := 0,
                  trial_index := s.trial_index + 1, cue_emitted := false },
         [Event.send (toString s.robot_stop_id) "go"])) := by
  subst hidx
  refine ⟨?_, ?_, ?_⟩
  · intro heff hrs helapsed
    unfold Study.experimentStep
    rw [ht]
    dsimp only
    rw [if_neg (by simp [hcue]), if_pos ⟨helapsed, hrs⟩]
    unfold Study.start_pause
    rw [if_pos heff]
  · intro heff hrs helapsed
    unfold Study.experimentStep
    rw [ht]
    dsimp only
    rw [if_neg (by simp [hcue]), if_pos ⟨helapsed, hrs⟩]
    unfold Study.start_pause
    rw [if_neg heff]
  · intro hrs helapsed hid
    unfold Study.experimentStep
    rw [ht]
    dsimp only
    rw [if_neg (by simp [hcue]), if_neg (by simp [hrs]), if_pos helapsed]
    unfold Study.end_pause
    rw [if_pos hid]

/-- Witness for the amended C5: a concrete effect-1 trial due for its pause
publishes exactly `(4, pause)`, and a concrete pause due for resolution
publishes exactly `(4, go)` and advances the trial index without clearing the
stop id. -/
theorem pause_semantics_witness :
    Study.experimentStep [((30 : ℚ), (0 : Int), (1 : Int))] 4 31
        ⟨0, true, 0, 1, -1⟩ =
      (⟨0, true, 1, 1, 4⟩,
       [Event.send "4" "pause", Event.push "robot_id" 5]) ∧
    Study.experimentStep [((30 : ℚ), (0 : Int), (1 : Int))] 9 36
        ⟨0, true, 1, 1, 4⟩ =
      (⟨1, false, 0, 0, 4⟩, [Event.send "4" "go"]) := by
  constructor
  · exact (pause_semantics [(30, 0, 1)] 0 (30, 0, 1) 4 31 ⟨0, true, 0, 1, -1⟩
      rfl rfl rfl).1 rfl rfl (by norm_num [Study.stop_offset])
  · exact (pause_semantics [(30, 0, 1)] 0 (30, 0, 1) 9 36 ⟨0, true, 1, 1, 4⟩
      rfl rfl rfl).2.2 (by decide) (by norm_num [Study.stop_offset,
        Study.robot_stop_duration]) (by decide)

/-- Counterexample to claim C6.  The claim says the timing orchestrator, after
the detection signal arrives while the robot is paused, issues the resume
directive first and then sleeps the confirmation interval
`0.2 + 0.1 × effect_level`.  In the code the order is reversed:
`time.sleep(0.2 + 0.1 * trials[trial_index][2])` (line 318) runs before
`end_pause()` (line 321), so at a concrete detection the first recorded effect
is the sleep and only then the `(robot_id, go)` publication. -/
theorem detection_order_counterexample :
    (StudyTiming.detectionBranch ⟨false, false, 10⟩ [(0, 0, 0)]
        ⟨6, true, false, false, true, 0⟩
        ⟨0, true, false, false, true, 0, 5, 5, 5, 1, 1, 1⟩).2 =
      [Event.sleepFor 0.2, Event.send "5" "go", Event.send "led" "1"] ∧
    (StudyTiming.detectionBranch ⟨false, false, 10⟩ [(0, 0, 0)]
        ⟨6, true, false, false, true, 0⟩
        ⟨0, true, false, false, true, 0, 5, 5, 5, 1, 1, 1⟩).2.head? ≠
      some (Event.send "5" "go") := by
  have h : (StudyTiming.detectionBranch ⟨false, false, 10⟩ [(0, 0, 0)]
      ⟨6, true, false, false, true, 0⟩
      ⟨0, true, false, false, true, 0, 5, 5, 5, 1, 1, 1⟩).2 =
      [Event.sleepFor 0.2, Event.send "5" "go", Event.send "led" "1"] := by
    norm_num [StudyTiming.detectionBranch, StudyTiming.end_pause]
    rfl
  exact ⟨h, by rw [h]; simp⟩

/-- Claim C6, amended: in a non-training session, once the detection signal
arrives while the robot is paused (and a robot is recorded as paused), the
orchestrator first sleeps the confirmation interval
`0.2 + 0.1 × effect_level` seconds and then issues the resume directive
`(robot_id, go)` — sleep before resume, the reverse of the claimed order —
followed by the `led 1` directive; it opens the response window
(`robot_detected = true`) and leaves the stopped state, resetting the robot
selection unless the session is a test session. -/
theorem detection_sleep_then_resume (cfg : StudyTiming.TConfig)
    (trials : List StudyTiming.Trial) (inp : StudyTiming.TInput)
    (s : StudyTiming.TState) (t : StudyTiming.Trial)
    (ht : trials.get? s.trial_index = some t)
    (hstopped : s.robot_stopped = true) (hmain : inp.user_main = true)
    (htrain : cfg.is_training = false) (hid : s.robot_stop_id ≠ -1) :
    StudyTiming.detectionBranch cfg trials inp s =
      ({ s with robot_stopped := false, robot_detected := true,
                robot_stop_id := if cfg.is_test = true then s.robot_stop_id
                                 else -1,
                robot_state := 0, cue_state := 0, stop_state := 0 },
       [Event.sleepFor (0.2 + 0.1 * (t.2.2 : ℚ)),
        Event.send (toString s.robot_stop_id) "go",
        Event.send "led" "1"]) := by
  unfold StudyTiming.detectionBranch StudyTiming.end_pause
  rw [ht]
  dsimp only
  rw [if_pos ⟨hstopped, hmain⟩]
  by_cases htest : cfg.is_test = true <;>
    simp [htrain, htest, hid]

/-- Witness for the amended C6: at a concrete detection of an effect-6 trial
with robot 2 paused in a plain experiment session, the branch emits the sleep,
then the resume, then the LED directive. -/
theorem detection_sleep_then_resume_witness :
    StudyTiming.detectionBranch ⟨false, false, 10⟩ [(0, 0, 6)]
        ⟨6, true, false, false, true, 0⟩
        ⟨0, true, false, false, true, 0, 5, 5, 2, 1, 1, 7⟩ =
      ({ (⟨0, true, false, false, true, 0, 5, 5, 2, 1, 1, 7⟩ :
            StudyTiming.TState) with
          robot_stopped := false, robot_detected := true,
          robot_stop_id := if (false : Bool) = true then (2 : Int) else -1,
          robot_state := 0, cue_state := 0, stop_state := 0 },
       [Event.sleepFor (0.2 + 0.1 * (((0, 0, 6) : StudyTiming.Trial).2.2 : ℚ)),
        Event.send (toString (2 : Int)) "go",
        Event.send "led" "1"]) :=
  detection_sleep_then_resume ⟨false, false, 10⟩ [(0, 0, 6)]
    ⟨6, true, false, false, true, 0⟩
    ⟨0, true, false, false, true, 0, 5, 5, 2, 1, 1, 7⟩ (0, 0, 6)
    rfl rfl rfl rfl (by decide)

/-- `handle_trial` keeps a recorded robot selection: the random draw is used
only when `robot_stop_id == -1`. -/
lemma handle_trial_stop_id (rand : Int) (t : StudyTiming.Trial) (b : Bool)
    (s : StudyTiming.TState) (h : s.robot_stop_id ≠ -1) :
    (StudyTiming.handle_trial rand t b s).1.robot_stop_id = s.robot_stop_id := by
  unfold StudyTiming.handle_trial
  dsimp only
  split_ifs <;> simp_all

/-- The trial-start branch keeps a recorded robot selection. -/
lemma trialStartBranch_stop_id (trials : List StudyTiming.Trial)
    (inp : StudyTiming.TInput) (s : StudyTiming.TState)
    (h : s.robot_stop_id ≠ -1) :
    (StudyTiming.trialStartBranch trials inp s).1.robot_stop_id =
      s.robot_stop_id := by
  unfold StudyTiming.trialStartBranch
  split
  · rfl
  · split
    · simp [handle_trial_stop_id _ _ _ _ h]
    · rfl

/-- In a training or test session the detection branch never resets the robot
selection. -/
lemma detectionBranch_stop_id (cfg : StudyTiming.TConfig)
    (trials : List StudyTiming.Trial) (inp : StudyTiming.TInput)
    (s : StudyTiming.TState)
    (hmode : cfg.is_training = true ∨ cfg.is_test = true) :
    (StudyTiming.detectionBranch cfg trials inp s).1.robot_stop_id =
      s.robot_stop_id := by
  unfold StudyTiming.detectionBranch StudyTiming.end_pause
  split
  · rfl
  · split
    · rcases hmode with hmode | hmode <;> split_ifs <;> simp_all
    · rfl

/-- The response branch never touches the robot selection. -/
lemma responseBranch_stop_id (trials : List StudyTiming.Trial)
    (inp : StudyTiming.TInput) (s : StudyTiming.TState) :
    (StudyTiming.responseBranch trials inp s).1.robot_stop_id =
      s.robot_stop_id := by
  unfold StudyTiming.responseBranch
  split
  · rfl
  · split <;> rfl

/-- The trial-resolution block never touches the robot selection. -/
lemma finishBranch_stop_id (now : ℚ) (s : StudyTiming.TState) :
    (StudyTiming.finishBranch now s).1.robot_stop_id = s.robot_stop_id := by
  unfold StudyTiming.finishBranch
  split <;> rfl

/-- One timing-loop iteration keeps a recorded robot selection in training or
test mode. -/
lemma timingStep_stop_id (cfg : StudyTiming.TConfig)
    (trials : List StudyTiming.Trial) (inp : StudyTiming.TInput)
    (s : StudyTiming.TState)
    (hmode : cfg.is_training = true ∨ cfg.is_test = true)
    (h : s.robot_stop_id ≠ -1) :
    (StudyTiming.timingStep cfg trials inp s).1.robot_stop_id =
      s.robot_stop_id := by
  unfold StudyTiming.timingStep
  dsimp only
  have hsE : (if ¬ s.in_trial = true then
      { s with elapsed_time := inp.now - s.start_time } else s).robot_stop_id =
      s.robot_stop_id := by
    split <;> rfl
  rw [finishBranch_stop_id, responseBranch_stop_id,
    detectionBranch_stop_id _ _ _ _ hmode, trialStartBranch_stop_id, hsE]
  rw [hsE]
  exact h

/-- The whole timing loop keeps a recorded robot selection in training or test
mode. -/
lemma runLoop_stop_id (cfg : StudyTiming.TConfig)
    (trials : List StudyTiming.Trial) (dur : ℚ)
    (hmode : cfg.is_training = true ∨ cfg.is_test = true) :
    ∀ (inputs : List StudyTiming.TInput) (s : StudyTiming.TState),
      s.robot_stop_id ≠ -1 →
      (StudyTiming.runLoop cfg trials dur inputs s).1.robot_stop_id =
        s.robot_stop_id := by
  intro inputs
  induction inputs with
  | nil => intro s h; rfl
  | cons i rest ih =>
      intro s h
      unfold StudyTiming.runLoop
      dsimp only
      split
      · split
        · dsimp only
          rw [ih _ (by rw [timingStep_stop_id cfg trials i s hmode h]; exact h),
            timingStep_stop_id cfg trials i s hmode h]
        · exact timingStep_stop_id cfg trials i s hmode h
      · rfl

/-- Counterexample to claim C7.  The claim says every session run by the
timing orchestrator pre-selects one robot before the main loop and never
re-randomizes it.  The plain experiment mode (`is_training = is_test = False`,
started via `run_training(num_repeats=13, cue_types=[0, 2])`) does the
opposite: `initSession` sets `robot_stop_id = -1`, `handle_trial` draws a
fresh robot at each trial, and the detection branch resets the selection to
`-1` after each trial.  In the concrete four-iteration session below (two
trials, detection and response supplied by the input trace, random draws 3 and
7) the session pauses robot 3 for the first trial and robot 7 for the second. -/
theorem timing_single_robot_counterexample :
    Event.send "3" "pause" ∈
      (StudyTiming.runLoop ⟨false, false, 10⟩ [(0, 0, 0), (1, 0, 0)] 100
        [⟨5, false, false, false, true, 3⟩, ⟨6, true, false, false, true, 0⟩,
         ⟨7, false, true, false, true, 0⟩, ⟨10, false, false, false, true, 7⟩]
        (StudyTiming.initSession ⟨false, false, 10⟩ 0 0).1).2 ∧
    Event.send "7" "pause" ∈
      (StudyTiming.runLoop ⟨false, false, 10⟩ [(0, 0, 0), (1, 0, 0)] 100
        [⟨5, false, false, false, true, 3⟩, ⟨6, true, false, false, true, 0⟩,
         ⟨7, false, true, false, true, 0⟩, ⟨10, false, false, false, true, 7⟩]
        (StudyTiming.initSession ⟨false, false, 10⟩ 0 0).1).2 ∧
    ("3" : String) ≠ "7" := by
  have h : (StudyTiming.runLoop ⟨false, false, 10⟩ [(0, 0, 0), (1, 0, 0)] 100
      [⟨5, false, false, false, true, 3⟩, ⟨6, true, false, false, true, 0⟩,
       ⟨7, false, true, false, true, 0⟩, ⟨10, false, false, false, true, 7⟩]
      (StudyTiming.initSession ⟨false, false, 10⟩ 0 0).1).2 =
      [Event.send "3" "pause", Event.push "robot_id" 4,
       Event.sleepFor 0.2, Event.send "3" "go", Event.send "led" "1",
       Event.play "Correct.wav", Event.send "led" "2", Event.send "led" "0",
       Event.send "7" "pause", Event.push "robot_id" 8] := by
    norm_num [StudyTiming.runLoop, StudyTiming.timingStep,
      StudyTiming.trialStartBranch, StudyTiming.detectionBranch,
      StudyTiming.responseBranch, StudyTiming.finishBranch,
      StudyTiming.handle_trial, StudyTiming.end_pause,
      StudyTiming.initSession]
    exact ⟨rfl, rfl⟩
  rw [h]
  refine ⟨by simp, by simp, by decide⟩

/-- Claim C7, amended: a timing-orchestrator session run in training or test
mode binds one robot for the whole session: `initSession` records the single
pre-loop random draw as `robot_stop_id`, and the main loop never changes it
(in particular `handle_trial` reuses it and the detection branch does not
reset it).  A plain experiment session instead starts with no selection (-1)
and re-randomizes at each trial. -/
theorem timing_session_single_robot (cfg : StudyTiming.TConfig)
    (trials : List StudyTiming.Trial) (dur t0 : ℚ)
    (inputs : List StudyTiming.TInput) (r : Int)
    (hmode : cfg.is_training = true ∨ cfg.is_test = true) (hr : 0 ≤ r) :
    (StudyTiming.initSession cfg r t0).1.robot_stop_id = r ∧
    (StudyTiming.runLoop cfg trials dur inputs
      (StudyTiming.initSession cfg r t0).1).1.robot_stop_id = r := by
  have hinit : (StudyTiming.initSession cfg r t0).1.robot_stop_id = r := by
    unfold StudyTiming.initSession
    dsimp only
    rcases hmode with hmode | hmode <;> simp [hmode]
  refine ⟨hinit, ?_⟩
  rw [runLoop_stop_id cfg trials dur hmode inputs _ (by rw [hinit]; omega), hinit]

/-- Witness for the amended C7: a concrete training session (pre-selected
robot 2, one trial, a two-iteration trace that pauses and detects) keeps
`robot_stop_id = 2` before and after the loop. -/
theorem timing_session_single_robot_witness :
    (StudyTiming.initSession ⟨true, false, 10⟩ 2 0).1.robot_stop_id = 2 ∧
    (StudyTiming.runLoop ⟨true, false, 10⟩ [(0, 0, 0)] 100
      [⟨5, false, false, false, true, 9⟩, ⟨6, true, false, false, true, 9⟩]
      (StudyTiming.initSession ⟨true, false, 10⟩ 2 0).1).1.robot_stop_id = 2 :=
  timing_session_single_robot ⟨true, false, 10⟩ [(0, 0, 0)] 100 0
    [⟨5, false, false, false, true, 9⟩, ⟨6, true, false, false, true, 9⟩] 2
    (Or.inl rfl) (by decide)

/-- Evaluation of one timing-loop iteration inside an open response window:
the trial-start branch is skipped (a trial is in progress), the detection
branch is skipped (the robot is no longer stopped), the response branch fires
and gives feedback only at the effect extremes, and the resolution block
closes the trial. -/
lemma timingStep_response (cfg : StudyTiming.TConfig)
    (trials : List StudyTiming.Trial) (inp : StudyTiming.TInput)
    (s : StudyTiming.TState) (t : StudyTiming.Trial)
    (ht : trials.get? s.trial_index = some t)
    (hin : s.in_trial = true) (hstop : s.robot_stopped = false)
    (hdet : s.robot_detected = true)
    (hpress : inp.user_long = true ∨ inp.user_short = true) :
    StudyTiming.timingStep cfg trials inp s =
      ({ s with robot_detected := false, trial_finished := false,
                in_trial := false, trial_index := s.trial_index + 1,
                start_time := s.start_time + (inp.now - s.robot_stop_time) },
       (if inp.user_long = true then
          if t.2.2 = 0 then [Event.play "Wrong.wav", Event.send "led" "3"]
          else if t.2.2 = 6 then
            [Event.play "Correct.wav", Event.send "led" "2"]
          else []
        else []) ++
       (if inp.user_short = true then
          if t.2.2 = 0 then [Event.play "Correct.wav", Event.send "led" "2"]
          else if t.2.2 = 6 then [Event.play "Wrong.wav", Event.send "led" "3"]
          else []
        else []) ++ [Event.send "led" "0"]) := by
  have h1 : StudyTiming.trialStartBranch trials inp s = (s, []) := by
    unfold StudyTiming.trialStartBranch
    rw [ht]
    dsimp only
    rw [if_neg (by simp [hin])]
  have h2 : StudyTiming.detectionBranch cfg trials inp s = (s, []) := by
    unfold StudyTiming.detectionBranch
    rw [ht]
    dsimp only
    rw [if_neg (by simp [hstop])]
  have h3 : StudyTiming.responseBranch trials inp s =
      ({ s with robot_detected := false, trial_finished := true },
       (if inp.user_long = true then
          if t.2.2 = 0 then [Event.play "Wrong.wav", Event.send "led" "3"]
          else if t.2.2 = 6 then
            [Event.play "Correct.wav", Event.send "led" "2"]
          else []
        else []) ++
       (if inp.user_short = true then
          if t.2.2 = 0 then [Event.play "Correct.wav", Event.send "led" "2"]
          else if t.2.2 = 6 then [Event.play "Wrong.wav", Event.send "led" "3"]
          else []
        else [])) := by
    unfold StudyTiming.responseBranch
    rw [ht]
    dsimp only
    rw [if_pos ⟨hdet, hpress⟩]
  unfold StudyTiming.timingStep
  dsimp only
  rw [if_neg (by simp [hin]), h1]
  dsimp only
  rw [h2]
  dsimp only
  rw [h3]
  dsimp only
  unfold StudyTiming.finishBranch
  rw [if_pos rfl]
  simp

/-- Claim C8: timing-variant response classification.  In the response
window, for a trial with `effect_level = 0` a short response yields correct
feedback (`Correct.wav`, green LED `led 2`) and a long response yields
incorrect feedback (`Wrong.wav`, red LED `led 3`); for a trial with
`effect_level = 6` a long response yields correct feedback and a short
response yields incorrect feedback — the symmetric rule.  (The trailing
`led 0` is the resolution block switching the LED off.) -/
theorem response_classification (cfg : StudyTiming.TConfig)
    (trials : List StudyTiming.Trial) (i : ℕ) :
    (∀ t s inp, StudyTiming.responseReady trials i t s → t.2.2 = 0 →
      inp.user_short = true → inp.user_long = false →
      (StudyTiming.timingStep cfg trials inp s).2 =
        [Event.play "Correct.wav", Event.send "led" "2",
         Event.send "led" "0"]) ∧
    (∀ t s inp, StudyTiming.responseReady trials i t s → t.2.2 = 0 →
      inp.user_long = true → inp.user_short = false →
      (StudyTiming.timingStep cfg trials inp s).2 =
        [Event.play "Wrong.wav", Event.send "led" "3",
         Event.send "led" "0"]) ∧
    (∀ t s inp, StudyTiming.responseReady trials i t s → t.2.2 = 6 →
      inp.user_long = true → inp.user_short = false →
      (StudyTiming.timingStep cfg trials inp s).2 =
        [Event.play "Correct.wav", Event.send "led" "2",
         Event.send "led" "0"]) ∧
    (∀ t s inp, StudyTiming.responseReady trials i t s → t.2.2 = 6 →
      inp.user_short = true → inp.user_long = false →
      (StudyTiming.timingStep cfg trials inp s).2 =
        [Event.play "Wrong.wav", Event.send "led" "3",
         Event.send "led" "0"]) := by
  refine ⟨?_, ?_, ?_, ?_⟩ <;>
    rintro t s inp ⟨ht, hidx, hin, hstop, hdet⟩ heff hbtn1 hbtn2 <;>
    subst hidx <;>
    rw [timingStep_response cfg trials inp s t ht hin hstop hdet
      (by simp [hbtn1])] <;>
    simp [hbtn1, hbtn2, heff]

/-- Witness for C8: in a concrete response window, each of the four
effect-extreme/button combinations produces exactly the claimed feedback. -/
theorem response_classification_witness :
    (StudyTiming.timingStep ⟨true, false, 10⟩ [(0, 0, 0)]
        ⟨9, false, true, false, true, 0⟩
        ⟨0, false, true, false, true, 0, 5, 5, 2, 0, 0, 0⟩).2 =
      [Event.play "Correct.wav", Event.send "led" "2", Event.send "led" "0"] ∧
    (StudyTiming.timingStep ⟨true, false, 10⟩ [(0, 0, 0)]
        ⟨9, false, false, true, true, 0⟩
        ⟨0, false, true, false, true, 0, 5, 5, 2, 0, 0, 0⟩).2 =
      [Event.play "Wrong.wav", Event.send "led" "3", Event.send "led" "0"] ∧
    (StudyTiming.timingStep ⟨true, false, 10⟩ [(0, 0, 6)]
        ⟨9, false, false, true, true, 0⟩
        ⟨0, false, true, false, true, 0, 5, 5, 2, 0, 0, 0⟩).2 =
      [Event.play "Correct.wav", Event.send "led" "2", Event.send "led" "0"] ∧
    (StudyTiming.timingStep ⟨true, false, 10⟩ [(0, 0, 6)]
        ⟨9, false, true, false, true, 0⟩
        ⟨0, false, true, false, true, 0, 5, 5, 2, 0, 0, 0⟩).2 =
      [Event.play "Wrong.wav", Event.send "led" "3", Event.send "led" "0"] := by
  refine ⟨?_, ?_, ?_, ?_⟩
  · exact (response_classification ⟨true, false, 10⟩ [(0, 0, 0)] 0).1
      (0, 0, 0) ⟨0, false, true, false, true, 0, 5, 5, 2, 0, 0, 0⟩
      ⟨9, false, true, false, true, 0⟩ ⟨rfl, rfl, rfl, rfl, rfl⟩ rfl rfl rfl
  · exact (response_classification ⟨true, false, 10⟩ [(0, 0, 0)] 0).2.1
      (0, 0, 0) ⟨0, false, true, false, true, 0, 5, 5, 2, 0, 0, 0⟩
      ⟨9, false, false, true, true, 0⟩ ⟨rfl, rfl, rfl, rfl, rfl⟩ rfl rfl rfl
  · exact (response_classification ⟨true, false, 10⟩ [(0, 0, 6)] 0).2.2.1
      (0, 0, 6) ⟨0, false, true, false, true, 0, 5, 5, 2, 0, 0, 0⟩
      ⟨9, false, false, true, true, 0⟩ ⟨rfl, rfl, rfl, rfl, rfl⟩ rfl rfl rfl
  · exact (response_classification ⟨true, false, 10⟩ [(0, 0, 6)] 0).2.2.2
      (0, 0, 6) ⟨0, false, true, false, true, 0, 5, 5, 2, 0, 0, 0⟩
      ⟨9, false, true, false, true, 0⟩ ⟨rfl, rfl, rfl, rfl, rfl⟩ rfl rfl rfl

/-- Claim C10 (implicit): in the timing orchestrator's response window, a
trial whose effect level is strictly between the extremes (neither 0 nor 6 —
the case for most trials under the default `effect_types = [0..6]`) receives
no feedback at all on a short or long press — no correct/wrong sound and no
feedback LED directive, only the unconditional `led 0` of the resolution
block — yet the trial is still marked finished and the session advances to
the next trial. -/
theorem midrange_effect_no_feedback (cfg : StudyTiming.TConfig)
    (trials : List StudyTiming.Trial) (i : ℕ) (t : StudyTiming.Trial)
    (s : StudyTiming.TState) (inp : StudyTiming.TInput)
    (hready : StudyTiming.responseReady trials i t s)
    (heff0 : t.2.2 ≠ 0) (heff6 : t.2.2 ≠ 6)
    (hpress : inp.user_long = true ∨ inp.user_short = true) :
    (StudyTiming.timingStep cfg trials inp s).2 = [Event.send "led" "0"] ∧
    (StudyTiming.timingStep cfg trials inp s).1.trial_index = i + 1 ∧
    (StudyTiming.timingStep cfg trials inp s).1.robot_detected = false ∧
    (StudyTiming.timingStep cfg trials inp s).1.trial_finished = false ∧
    (StudyTiming.timingStep cfg trials inp s).1.in_trial = false := by
  obtain ⟨ht, hidx, hin, hstop, hdet⟩ := hready
  subst hidx
  rw [timingStep_response cfg trials inp s t ht hin hstop hdet hpress]
  simp [heff0, heff6]

/-- Witness for C10: a concrete effect-3 trial with a short press produces
only the `led 0` directive and the session advances. -/
theorem midrange_effect_no_feedback_witness :
    (StudyTiming.timingStep ⟨false, false, 10⟩ [(0, 0, 3)]
        ⟨9, false, true, false, true, 0⟩
        ⟨0, false, true, false, true, 0, 5, 5, 2, 0, 0, 0⟩).2 =
      [Event.send "led" "0"] ∧
    (StudyTiming.timingStep ⟨false, false, 10⟩ [(0, 0, 3)]
        ⟨9, false, true, false, true, 0⟩
        ⟨0, false, true, false, true, 0, 5, 5, 2, 0, 0, 0⟩).1.trial_index =
      0 + 1 ∧
    (StudyTiming.timingStep ⟨false, false, 10⟩ [(0, 0, 3)]
        ⟨9, false, true, false, true, 0⟩
        ⟨0, false, true, false, true, 0, 5, 5, 2, 0, 0, 0⟩).1.robot_detected =
      false ∧
    (StudyTiming.timingStep ⟨false, false, 10⟩ [(0, 0, 3)]
        ⟨9, false, true, false, true, 0⟩
        ⟨0, false, true, false, true, 0, 5, 5, 2, 0, 0, 0⟩).1.trial_finished =
      false ∧
    (StudyTiming.timingStep ⟨false, false, 10⟩ [(0, 0, 3)]
        ⟨9, false, true, false, true, 0⟩
        ⟨0, false, true, false, true, 0, 5, 5, 2, 0, 0, 0⟩).1.in_trial =
      false :=
  midrange_effect_no_feedback ⟨false, false, 10⟩ [(0, 0, 3)] 0 (0, 0, 3)
    ⟨0, false, true, false, true, 0, 5, 5, 2, 0, 0, 0⟩
    ⟨9, false, true, false, true, 0⟩ ⟨rfl, rfl, rfl, rfl, rfl⟩
    (by decide) (by decide) (Or.inr rfl)

/-- `handle_trial` never writes `elapsed_time`. -/
lemma handle_trial_elapsed (rand : Int) (t : StudyTiming.Trial) (b : Bool)
    (s : StudyTiming.TState) :
    (StudyTiming.handle_trial rand t b s).1.elapsed_time = s.elapsed_time := by
  unfold StudyTiming.handle_trial
  dsimp only
  split_ifs <;> rfl

/-- The trial-start branch never writes `elapsed_time`. -/
lemma trialStartBranch_elapsed (trials : List StudyTiming.Trial)
    (inp : StudyTiming.TInput) (s : StudyTiming.TState) :
    (StudyTiming.trialStartBranch trials inp s).1.elapsed_time =
      s.elapsed_time := by
  unfold StudyTiming.trialStartBranch
  split
  · rfl
  · split
    · simp [handle_trial_elapsed]
    · rfl

/-- The detection branch never writes `elapsed_time`. -/
lemma detectionBranch_elapsed (cfg : StudyTiming.TConfig)
    (trials : List StudyTiming.Trial) (inp : StudyTiming.TInput)
    (s : StudyTiming.TState) :
    (StudyTiming.detectionBranch cfg trials inp s).1.elapsed_time =
      s.elapsed_time := by
  unfold StudyTiming.detectionBranch StudyTiming.end_pause
  split
  · rfl
  · split
    · dsimp only
      split_ifs <;> rfl
    · rfl

/-- The response branch never writes `elapsed_time`. -/
lemma responseBranch_elapsed (trials : List StudyTiming.Trial)
    (inp : StudyTiming.TInput) (s : StudyTiming.TState) :
    (StudyTiming.responseBranch trials inp s).1.elapsed_time =
      s.elapsed_time := by
  unfold StudyTiming.responseBranch
  split
  · rfl
  · split <;> rfl

/-- The trial-resolution block never writes `elapsed_time`. -/
lemma finishBranch_elapsed (now : ℚ) (s : StudyTiming.TState) :
    (StudyTiming.finishBranch now s).1.elapsed_time = s.elapsed_time := by
  unfold StudyTiming.finishBranch
  split <;> rfl

/-- Claim C9: the timing orchestrator's clock law.  While a trial window is
open (`in_trial`), a loop iteration leaves `elapsed_time` exactly as it was
(frozen at its value on entering the window); outside a window it is
re-measured as `now - start_time`; and the resolution block advances the
clock baseline `start_time` by exactly the wall-clock time spent since the
robot was stopped (`now - robot_stop_time`), so later trial offsets are
compared against free-running time only. -/
theorem timing_clock_law (cfg : StudyTiming.TConfig)
    (trials : List StudyTiming.Trial) (inp : StudyTiming.TInput)
    (s sf : StudyTiming.TState) (now : ℚ) :
    (s.in_trial = true →
      (StudyTiming.timingStep cfg trials inp s).1.elapsed_time =
        s.elapsed_time) ∧
    (s.in_trial = false →
      (StudyTiming.timingStep cfg trials inp s).1.elapsed_time =
        inp.now - s.start_time) ∧
    (sf.trial_finished = true →
      StudyTiming.finishBranch now sf =
        ({ sf with trial_finished := false, in_trial := false,
                   trial_index := sf.trial_index + 1,
                   start_time := sf.start_time + (now - sf.robot_stop_time) },
         [Event.send "led" "0"])) := by
  have chain : ∀ s0 : StudyTiming.TState,
      (StudyTiming.finishBranch inp.now (StudyTiming.responseBranch trials inp
        (StudyTiming.detectionBranch cfg trials inp
          (StudyTiming.trialStartBranch trials inp s0).1).1).1).1.elapsed_time =
        s0.elapsed_time := by
    intro s0
    rw [finishBranch_elapsed, responseBranch_elapsed, detectionBranch_elapsed,
      trialStartBranch_elapsed]
  refine ⟨?_, ?_, ?_⟩
  · intro hin
    unfold StudyTiming.timingStep
    dsimp only
    rw [if_neg (by simp [hin])]
    exact chain s
  · intro hin
    unfold StudyTiming.timingStep
    dsimp only
    rw [if_pos (by simp [hin])]
    exact chain { s with elapsed_time := inp.now - s.start_time }
  · intro hfin
    unfold StudyTiming.finishBranch
    rw [if_pos hfin]

/-- Witness for C9: with a window open, a concrete iteration keeps
`elapsed_time = 5`; with no window open, it re-measures `9 - 1`; and a
concrete finished trial advances the baseline by `9 - 3`. -/
theorem timing_clock_law_witness :
    (StudyTiming.timingStep ⟨false, false, 10⟩ []
        ⟨9, false, false, false, true, 0⟩
        ⟨0, false, false, false, true, 1, 5, 3, 2, 0, 0, 0⟩).1.elapsed_time =
      (5 : ℚ) ∧
    (StudyTiming.timingStep ⟨false, false, 10⟩ []
        ⟨9, false, false, false, true, 0⟩
        ⟨0, false, false, false, false, 1, 5, 3, 2, 0, 0, 0⟩).1.elapsed_time =
      (9 : ℚ) - 1 ∧
    StudyTiming.finishBranch 9
        ⟨0, false, false, true, true, 1, 5, 3, 2, 0, 0, 0⟩ =
      ({ (⟨0, false, false, true, true, 1, 5, 3, 2, 0, 0, 0⟩ :
            StudyTiming.TState) with
          trial_finished := false, in_trial := false,
          trial_index := 0 + 1, start_time := (1 : ℚ) + (9 - 3) },
       [Event.send "led" "0"]) :=
  ⟨(timing_clock_law ⟨false, false, 10⟩ [] ⟨9, false, false, false, true, 0⟩
      ⟨0, false, false, false, true, 1, 5, 3, 2, 0, 0, 0⟩
      ⟨0, false, false, true, true, 1, 5, 3, 2, 0, 0, 0⟩ 9).1 rfl,
   (timing_clock_law ⟨false, false, 10⟩ [] ⟨9, false, false, false, true, 0⟩
      ⟨0, false, false, false, false, 1, 5, 3, 2, 0, 0, 0⟩
      ⟨0, false, false, true, true, 1, 5, 3, 2, 0, 0, 0⟩ 9).2.1 rfl,
   (timing_clock_law ⟨false, false, 10⟩ [] ⟨9, false, false, false, true, 0⟩
      ⟨0, false, false, false, true, 1, 5, 3, 2, 0, 0, 0⟩
      ⟨0, false, false, true, true, 1, 5, 3, 2, 0, 0, 0⟩ 9).2.2 rfl⟩
